import Mathlib

/-
Verification development for the APx500 instrument session controller
(apxctrl).  The definitions below are a shallow embedding of
src/apxctrl/controller.py and src/apxctrl/model.py: the controller's
mutable object state becomes an explicit `Controller` record threaded
through each operation, calls into the external .NET driver, the OS
process supervisor and the filesystem are parameterised by explicit
behaviour records (which calls succeed, what they return), and every
operation also returns the list of external calls it performed so that
"no side effect" properties can be stated.  Exceptions in the Python
source become explicit branches on the behaviour flags, mirroring the
source's try/except structure.
-/

/-- States of the APx application (model.py, class APxState). -/
inductive APxState
  | NOT_RUNNING
  | STARTING
  | IDLE
  | RUNNING_STEP
  | ERROR
deriving DecidableEq, Repr

/-- Information about the currently loaded project (model.py, ProjectInfo).
Timestamps are modelled as naturals. -/
structure ProjectInfo where
  name : String
  file_path : String
  sha256 : String
  loaded_at : Nat
deriving DecidableEq, Repr

/-- Complete state of the APx control server (model.py, ServerState). -/
structure ServerState where
  apx_state : APxState
  project : Option ProjectInfo
  apx_pid : Option Nat
  last_error : Option String
  last_error_at : Option Nat
  server_started_at : Nat
deriving DecidableEq, Repr

/-- The controller object (controller.py, APxController): the shared server
state, whether a driver handle is currently held (`self._apx_instance is
not None`), and whether the CLR bridge has been loaded. -/
structure Controller where
  state : ServerState
  apx_instance : Bool
  clrLoaded : Bool
deriving DecidableEq, Repr

/-- External calls a controller operation can perform, recorded as a trace:
CLR/driver setup calls made while launching, driver calls, and process
supervisor calls.  `killPid` records whether the taskkill succeeded. -/
inductive ExtCall
  | initCLR
  | construct
  | setVisible
  | openProject (path : String)
  | readSeqCount
  | closeDriver
  | findProcs
  | killPid (pid : String) (ok : Bool)
  | activateSeq (name : String)
  | runSeq (testRunId : String)
  | readPassed
deriving DecidableEq, Repr

/-- Behaviour of the OS process supervisor for one kill-all invocation
(controller.py, kill_existing_apx_processes): whether the PowerShell
process search itself throws, the PIDs it reports, and which taskkill
invocations succeed. -/
structure Supervisor where
  findThrows : Bool
  pids : List String
  killOk : String → Bool

/-- The per-PID kill attempts recorded in the trace. -/
def killAttempts (sup : Supervisor) : List ExtCall :=
  sup.pids.map (fun p => ExtCall.killPid p (sup.killOk p))

/-- Number of processes a kill-all invocation terminates: zero when the
process search throws (the PID loop is skipped), otherwise the number of
PIDs whose taskkill succeeded. -/
def killedOf (sup : Supervisor) : Nat :=
  if sup.findThrows then 0 else (sup.pids.filter (fun p => sup.killOk p)).length

/-- The state clearing done at the end of kill_existing_apx_processes
(controller.py lines 130-132): state NOT_RUNNING, pid and project cleared.
Error fields are left untouched here. -/
def clearRunState (s : ServerState) : ServerState :=
  { s with apx_state := APxState.NOT_RUNNING, apx_pid := none, project := none }

structure KillOut where
  ctrl : Controller
  killed : Nat
  calls : List ExtCall

/-- controller.py, kill_existing_apx_processes: find every APx500 process,
kill each (tolerating individual failures), then clear the internal
reference and the run-related state fields; returns the kill count. -/
def kill_existing_apx_processes (c : Controller) (sup : Supervisor) : KillOut :=
  { ctrl := { c with apx_instance := false, state := clearRunState c.state },
    killed := killedOf sup,
    calls :=
      if sup.findThrows then [ExtCall.findProcs]
      else ExtCall.findProcs :: killAttempts sup }

structure ShutdownOut where
  ctrl : Controller
  ok : Bool
  calls : List ExtCall

/-- controller.py, shutdown: if a driver handle exists, attempt a graceful
Close (its failure is caught; with force=True it escalates to the process
killer), then unconditionally clear the handle and the run state and
return True.  `closeOk` says whether the graceful Close call succeeds. -/
def shutdown (c : Controller) (closeOk : Bool) (sup : Supervisor) (force : Bool) :
    ShutdownOut :=
  let step1 : Controller × List ExtCall :=
    if c.apx_instance then
      if closeOk then (c, [ExtCall.closeDriver])
      else if force then
        let k := kill_existing_apx_processes c sup
        (k.ctrl, ExtCall.closeDriver :: k.calls)
      else (c, [ExtCall.closeDriver])
    else (c, [])
  { ctrl := { step1.1 with apx_instance := false, state := clearRunState step1.1.state },
    ok := true,
    calls := step1.2 }

structure ResetOut where
  ctrl : Controller
  killed : Nat
  calls : List ExtCall

/-- controller.py, reset: unconditionally kill all APx processes, then clear
the handle and every ServerState field including the error fields; returns
the kill count. -/
def reset (c : Controller) (sup : Supervisor) : ResetOut :=
  let k := kill_existing_apx_processes c sup
  { ctrl :=
      { k.ctrl with
        apx_instance := false,
        state :=
          { k.ctrl.state with
            apx_state := APxState.NOT_RUNNING, apx_pid := none, project := none,
            last_error := none, last_error_at := none } },
    killed := k.killed,
    calls := k.calls }

structure HealthOut where
  ctrl : Controller
  healthy : Bool

/-- controller.py, check_health: if the state claims APx is running
(IDLE or RUNNING_STEP) but no driver handle is held, downgrade the state
to NOT_RUNNING, record the cause, and report unhealthy; otherwise report
healthy without changes. -/
def check_health (c : Controller) (now : Nat) : HealthOut :=
  if c.state.apx_state = APxState.IDLE ∨ c.state.apx_state = APxState.RUNNING_STEP then
    if c.apx_instance = false then
      { ctrl :=
          { c with state :=
              { c.state with
                apx_state := APxState.NOT_RUNNING,
                last_error := some "APx instance lost",
                last_error_at := some now } },
        healthy := false }
    else { ctrl := c, healthy := true }
  else { ctrl := c, healthy := true }

/-- The "not ready" message returned when no driver handle is held. -/
def notRunningMsg : String := "APx not running. Call /setup first."

/-- controller.py, _require_apx: the only availability check shared by the
driver-backed operations — it tests the handle, not the session state. -/
def require_apx (c : Controller) : Option String :=
  if c.apx_instance = false then some notRunningMsg else none

/-- Final path component, splitting on both separators (pathlib name). -/
def pathBasename (p : String) : String :=
  (((p.splitOn "/").getLastD p).splitOn "\\").getLastD p

/-- Model of pathlib Path.stem: the final component without its last
extension; a dot in the leading position does not start an extension. -/
def pathStem (p : String) : String :=
  let base := pathBasename p
  match base.toList with
  | [] => base
  | c0 :: rest =>
    if rest.contains '.' then
      String.mk (c0 :: ((rest.reverse.dropWhile (fun ch => ch ≠ '.')).drop 1).reverse)
    else base

/-- Environment for one launch attempt: the filesystem facts about the
project file, the behaviour of the prior-session shutdown if one is
needed, and which driver-setup steps succeed.  `now` is the wall clock
used for error timestamps and load timestamps. -/
structure LaunchEnv where
  fileExists : Bool
  fileSize : Nat
  fileHash : String
  closeOk : Bool
  sup : Supervisor
  clrOk : Bool
  constructOk : Bool
  visibleOk : Bool
  openOk : Bool
  now : Nat

/-- model.py, ProjectInfo.from_file: name defaults to the file stem, the
digest is the file's SHA256 (given by the environment), resolve is the
identity in this embedding. -/
def ProjectInfo.from_file (env : LaunchEnv) (file_path : String)
    (name : Option String) : ProjectInfo :=
  { name := name.getD (pathStem file_path),
    file_path := file_path,
    sha256 := env.fileHash,
    loaded_at := env.now }

/-- The except-branch of launch_apx (controller.py lines 235-242): state
ERROR, error message and timestamp recorded.  The handle is cleared by the
caller alongside this. -/
def launchFailState (s : ServerState) (msg : String) (now : Nat) : ServerState :=
  { s with apx_state := APxState.ERROR, last_error := some msg, last_error_at := some now }

structure LaunchOut where
  ctrl : Controller
  ok : Bool
  calls : List ExtCall

/-- controller.py, launch_apx: shut down a prior session first if a handle
exists, mark STARTING, validate the project file (exists, non-empty),
lazily initialise the CLR, construct the driver, make it visible, open the
project, read back the sequence count (non-fatal), then record the project
and go IDLE.  Any failure lands in the except branch: ERROR, message and
timestamp recorded, handle cleared. -/
def launch_apx (c : Controller) (env : LaunchEnv) (project_path : String)
    (project_name : Option String) : LaunchOut :=
  let pre : Controller × List ExtCall :=
    if c.apx_instance then
      let s := shutdown c env.closeOk env.sup true
      (s.ctrl, s.calls)
    else (c, [])
  let c1 : Controller := { pre.1 with state := { pre.1.state with apx_state := APxState.STARTING } }
  let tr0 := pre.2
  if ¬ env.fileExists then
    { ctrl :=
        { c1 with
          state := launchFailState c1.state
            ("Failed to launch APx500: Project file not found: " ++ project_path) env.now,
          apx_instance := false },
      ok := false, calls := tr0 }
  else if env.fileSize = 0 then
    { ctrl :=
        { c1 with
          state := launchFailState c1.state
            ("Failed to launch APx500: Project file is empty: " ++ project_path) env.now,
          apx_instance := false },
      ok := false, calls := tr0 }
  else
    let tr1 := tr0 ++ (if c1.clrLoaded then [] else [ExtCall.initCLR])
    if ¬ c1.clrLoaded ∧ ¬ env.clrOk then
      { ctrl :=
          { c1 with
            state := launchFailState c1.state
              "Failed to launch APx500: Failed to initialize CLR/APx assemblies" env.now,
            apx_instance := false },
        ok := false, calls := tr1 }
    else
      let c2 : Controller := { c1 with clrLoaded := true }
      let tr2 := tr1 ++ [ExtCall.construct]
      if ¬ env.constructOk then
        { ctrl :=
            { c2 with
              state := launchFailState c2.state
                "Failed to launch APx500: driver construction failed" env.now,
              apx_instance := false },
          ok := false, calls := tr2 }
      else
        let c3 : Controller := { c2 with apx_instance := true }
        let tr3 := tr2 ++ [ExtCall.setVisible]
        if ¬ env.visibleOk then
          { ctrl :=
              { c3 with
                state := launchFailState c3.state
                  "Failed to launch APx500: could not set visibility" env.now,
                apx_instance := false },
            ok := false, calls := tr3 }
        else
          let tr4 := tr3 ++ [ExtCall.openProject project_path]
          if ¬ env.openOk then
            { ctrl :=
                { c3 with
                  state := launchFailState c3.state
                    "Failed to launch APx500: OpenProject failed" env.now,
                  apx_instance := false },
              ok := false, calls := tr4 }
          else
            { ctrl :=
                { c3 with
                  state :=
                    { c3.state with
                      project := some (ProjectInfo.from_file env project_path project_name),
                      apx_state := APxState.IDLE,
                      last_error := none } },
              ok := true,
              calls := tr4 ++ [ExtCall.readSeqCount] }

/-- Behaviour of the driver during one run_sequence call: which of the
three driver calls (Activate, Run, read Passed) succeed, the pass/fail
outcome, the elapsed wall time, and the clock for error timestamps. -/
structure RunEnv where
  activateOk : Bool
  runOk : Bool
  passedReadOk : Bool
  passed : Bool
  elapsed : Nat
  now : Nat

structure RunOut where
  ctrl : Controller
  passed : Bool
  duration : Nat
  error : Option String
  calls : List ExtCall

/-- The finally-block of run_sequence (controller.py lines 474-476):
always return to IDLE. -/
def runFinally (c : Controller) : Controller :=
  { c with state := { c.state with apx_state := APxState.IDLE } }

/-- controller.py, run_sequence: reject when no driver handle is held or a
step is already running (both without side effects); otherwise mark
RUNNING_STEP, activate the sequence, run it with the test-run id, read the
pass flag; any driver failure records last_error and the finally block
returns the state to IDLE in every case. -/
def run_sequence (c : Controller) (env : RunEnv) (sequence_name test_run_id : String) :
    RunOut :=
  match require_apx c with
  | some err => { ctrl := c, passed := false, duration := 0, error := some err, calls := [] }
  | none =>
    if c.state.apx_state = APxState.RUNNING_STEP then
      { ctrl := c, passed := false, duration := 0,
        error := some "A sequence is already running", calls := [] }
    else
      let cR : Controller := { c with state := { c.state with apx_state := APxState.RUNNING_STEP } }
      if ¬ env.activateOk then
        let msg := "Error running sequence: could not activate sequence"
        { ctrl := runFinally
            { cR with state := { cR.state with last_error := some msg, last_error_at := some env.now } },
          passed := false, duration := env.elapsed, error := some msg,
          calls := [ExtCall.activateSeq sequence_name] }
      else if ¬ env.runOk then
        let msg := "Error running sequence: run failed"
        { ctrl := runFinally
            { cR with state := { cR.state with last_error := some msg, last_error_at := some env.now } },
          passed := false, duration := env.elapsed, error := some msg,
          calls := [ExtCall.activateSeq sequence_name, ExtCall.runSeq test_run_id] }
      else if ¬ env.passedReadOk then
        let msg := "Error running sequence: could not read pass state"
        { ctrl := runFinally
            { cR with state := { cR.state with last_error := some msg, last_error_at := some env.now } },
          passed := false, duration := env.elapsed, error := some msg,
          calls := [ExtCall.activateSeq sequence_name, ExtCall.runSeq test_run_id,
                    ExtCall.readPassed] }
      else
        { ctrl := runFinally cR,
          passed := env.passed, duration := env.elapsed, error := none,
          calls := [ExtCall.activateSeq sequence_name, ExtCall.runSeq test_run_id,
                    ExtCall.readPassed] }

/-- A measurement as seen through the driver (name and Checked flag). -/
structure DriverMeas where
  name : String
  checked : Bool
deriving DecidableEq, Repr

/-- A signal path as seen through the driver. -/
structure DriverSP where
  name : String
  checked : Bool
  measurements : List DriverMeas
deriving DecidableEq, Repr

/-- A sequence as seen through the driver: its name and, once it is the
active sequence, the signal paths the Sequence view exposes. -/
structure DriverSeq where
  name : String
  signalPaths : List DriverSP
deriving DecidableEq, Repr

/-- The external driver as the enumerator sees it: the sequence
collection, which sequence is currently active, whether reading
ActiveSequence.Name succeeds, and which Activate calls throw. -/
structure ApxDriver where
  sequences : List DriverSeq
  active : Option String
  activeReadOk : Bool
  activateFails : String → Bool

/-- model.py, MeasurementInfo. -/
structure MeasurementInfo where
  index : Nat
  name : String
  checked : Bool
deriving DecidableEq, Repr

/-- model.py, SignalPathInfo. -/
structure SignalPathInfo where
  index : Nat
  name : String
  checked : Bool
  measurements : List MeasurementInfo
deriving DecidableEq, Repr

/-- model.py, SequenceInfo. -/
structure SequenceInfo where
  index : Nat
  name : String
  signal_paths : List SignalPathInfo
deriving DecidableEq, Repr

/-- The inner measurement loop of list_structure. -/
def buildMeasurements (ms : List DriverMeas) : List MeasurementInfo :=
  ms.enum.map (fun im => { index := im.1, name := im.2.name, checked := im.2.checked })

/-- The signal-path loop of list_structure, walking the active sequence. -/
def buildSignalPaths (sps : List DriverSP) : List SignalPathInfo :=
  sps.enum.map (fun isp =>
    { index := isp.1, name := isp.2.name, checked := isp.2.checked,
      measurements := buildMeasurements isp.2.measurements })

/-- One captured SequenceInfo for the sequence at collection index i. -/
def buildSequenceInfo (i : Nat) (s : DriverSeq) : SequenceInfo :=
  { index := i, name := s.name, signal_paths := buildSignalPaths s.signalPaths }

/-- The sequence loop of list_structure: activate each sequence in
collection order and walk it.  The first failing Activate throws out of
the loop; the returned Option String is the driver's active sequence at
that moment (the stateful side effect of the activations so far). -/
def walkSequences (fails : String → Bool) :
    List (Nat × DriverSeq) → Option String →
      Option String × Except String (List SequenceInfo)
  | [], act => (act, Except.ok [])
  | (i, s) :: rest, act =>
    if fails s.name then
      (act, Except.error ("Error listing structure: could not activate " ++ s.name))
    else
      match walkSequences fails rest (some s.name) with
      | (act2, Except.ok tl) => (act2, Except.ok (buildSequenceInfo i s :: tl))
      | (act2, Except.error e) => (act2, Except.error e)

structure ListOut where
  driver : ApxDriver
  sequences : List SequenceInfo
  active_sequence : Option String
  error : Option String

/-- controller.py, list_structure: after the handle check, read the name
of the active sequence (a failed read leaves it None), walk every
sequence in the collection (activating each), and on success restore the
previously active sequence — the restore is attempted only for a truthy
(non-empty) name and its own failure is only logged.  A driver exception
during the walk lands in the except branch, which returns the error
without restoring anything. -/
def list_structure (c : Controller) (d : ApxDriver) : ListOut :=
  match require_apx c with
  | some err => { driver := d, sequences := [], active_sequence := none, error := some err }
  | none =>
    let activeRead : Option String := if d.activeReadOk then d.active else none
    match walkSequences d.activateFails d.sequences.enum d.active with
    | (act2, Except.error e) =>
      { driver := { d with active := act2 },
        sequences := [], active_sequence := none, error := some e }
    | (act2, Except.ok seqs) =>
      let actFinal : Option String :=
        match activeRead with
        | some a =>
          if a ≠ "" then (if d.activateFails a then act2 else some a) else act2
        | none => act2
      { driver := { d with active := actFinal },
        sequences := seqs, active_sequence := activeRead, error := none }

/-- One directory entry of the parent directory, with its name, whether it
is a directory, and its modification time. -/
structure DirEntry where
  name : String
  is_dir : Bool
  mtime : Nat
deriving DecidableEq, Repr

/-- The filesystem as one get_result call observes it: facts about the
parent directory of the requested path, its entries (in listing order),
and whether the archive step succeeds. -/
structure ResultsFS where
  parentExists : Bool
  parentIsDir : Bool
  entries : List DirEntry
  zipOk : Bool

/-- Descending-by-mtime comparison used for the ambiguity tie-break
(controller.py line 516: sort by st_mtime, reverse=True). -/
def mtimeDesc (a b : DirEntry) : Bool := decide (b.mtime ≤ a.mtime)

/-- Entries of the parent directory matching the glob pattern
"name*", filtered to directories (controller.py lines 508-509). -/
def matchingDirs (fs : ResultsFS) (pfx : String) : List DirEntry :=
  (fs.entries.filter (fun e => e.name.startsWith pfx)).filter (fun e => e.is_dir)

/-- The final component of a component-list path (Path.name). -/
def lastComponent (rp : List String) : String := rp.getLastD ""

/-- The fixed staging location for result archives. -/
def tempResultsDir : String := "/tmp/apxctrl/results"

/-- Path of the archive produced for a resolved directory name. -/
def zipPathFor (dirName : String) : String :=
  tempResultsDir ++ "/" ++ dirName ++ ".zip"

structure GetResultOut where
  ctrl : Controller
  zip_path : Option String
  directory_found : Option String
  error : Option String

/-- controller.py, get_result: split the requested path into parent and
final component, check the parent, glob for directories matching the
component as a name pattern, fail with not-found on zero matches, sort by
modification time (most recent first) on multiple matches, then archive
the selected directory and return the archive path and the resolved name.
The controller's own state is never consulted or touched.  Paths are
modelled as component lists. -/
def get_result (c : Controller) (fs : ResultsFS) (results_path : List String) :
    GetResultOut :=
  let pfx := lastComponent results_path
  if ¬ fs.parentExists then
    { ctrl := c, zip_path := none, directory_found := none,
      error := some "Parent directory does not exist" }
  else if ¬ fs.parentIsDir then
    { ctrl := c, zip_path := none, directory_found := none,
      error := some "Parent path is not a directory" }
  else
    let matching := matchingDirs fs pfx
    if matching.isEmpty then
      { ctrl := c, zip_path := none, directory_found := none,
        error := some ("No directory found matching " ++ pfx) }
    else
      let ordered := if 1 < matching.length then matching.mergeSort mtimeDesc else matching
      let target := ordered.headD { name := "", is_dir := false, mtime := 0 }
      if ¬ fs.zipOk then
        { ctrl := c, zip_path := none, directory_found := none,
          error := some "Error getting results" }
      else
        { ctrl := c, zip_path := some (zipPathFor target.name),
          directory_found := some target.name, error := none }

lemma clearRunState_apx_state (s : ServerState) :
    (clearRunState s).apx_state = APxState.NOT_RUNNING := rfl

lemma clearRunState_project (s : ServerState) : (clearRunState s).project = none := rfl

/-- Predicate picking the successful kill attempts out of a trace. -/
def isKillSuccess : ExtCall → Bool
  | ExtCall.killPid _ ok => ok
  | _ => false

/-- Number of processes a recorded trace shows as terminated. -/
def killedCount (calls : List ExtCall) : Nat := (calls.filter isKillSuccess).length

lemma killedCount_attempts (pids : List String) (ko : String → Bool) :
    ((pids.map (fun p => ExtCall.killPid p (ko p))).filter isKillSuccess).length
      = (pids.filter ko).length := by
  induction pids with
  | nil => rfl
  | cons p ps ih =>
    by_cases h : ko p <;> simp [List.filter_cons, isKillSuccess, h, ih]

/-- C6: after reset() the session state is NotRunning, the project and both
error fields are null, the process-kill operation has been invoked
unconditionally, and the returned value is the count of processes the
supervisor terminated. -/
theorem reset_clears_all_state_and_kills (c : Controller) (sup : Supervisor) :
    (reset c sup).ctrl.state.apx_state = APxState.NOT_RUNNING ∧
    (reset c sup).ctrl.state.project = none ∧
    (reset c sup).ctrl.state.last_error = none ∧
    (reset c sup).ctrl.state.last_error_at = none ∧
    (reset c sup).killed = killedOf sup ∧
    ExtCall.findProcs ∈ (reset c sup).calls := by
  refine ⟨rfl, rfl, rfl, rfl, rfl, ?_⟩
  show ExtCall.findProcs ∈ (kill_existing_apx_processes c sup).calls
  unfold kill_existing_apx_processes
  by_cases h : sup.findThrows <;> simp [h]

/-- Conclusion of the C8 theorem: outcome of shutdown(force=true) whose
graceful close throws. -/
def ShutdownForcedOutcome (c : Controller) (sup : Supervisor) : Prop :=
  (shutdown c false sup true).ctrl.state.apx_state = APxState.NOT_RUNNING ∧
  (shutdown c false sup true).ctrl.apx_instance = false ∧
  (shutdown c false sup true).ok = true ∧
  killedCount (shutdown c false sup true).calls = killedOf sup ∧
  0 ≤ killedOf sup

/-- C8: shutdown(force=true) with a driver handle whose graceful close
throws still ends NotRunning with the handle cleared, reports success, and
the kill escalation terminates a non-negative number of processes (exactly
the supervisor's successful kills). -/
theorem shutdown_forced_survives_close_failure (c : Controller) (sup : Supervisor)
    (h : c.apx_instance = true) : ShutdownForcedOutcome c sup := by
  unfold ShutdownForcedOutcome shutdown kill_existing_apx_processes
  refine ⟨?_, ?_, ?_, ?_, Nat.zero_le _⟩ <;>
    by_cases hf : sup.findThrows <;>
      simp [h, hf, killedCount, killedOf, isKillSuccess, List.filter_cons,
            killAttempts, killedCount_attempts, clearRunState]

/-- A controller holding a live session on a loaded project. -/
def cLive : Controller :=
  { state :=
      { apx_state := APxState.IDLE,
        project := some { name := "proj", file_path := "/data/proj.approjx",
                          sha256 := "abc", loaded_at := 0 },
        apx_pid := none, last_error := none, last_error_at := none,
        server_started_at := 0 },
    apx_instance := true, clrLoaded := true }

/-- A supervisor that finds two stray processes and kills both. -/
def supTwo : Supervisor :=
  { findThrows := false, pids := ["104", "221"], killOk := fun _ => true }

/-- C8 witness at a concrete live controller and supervisor. -/
theorem shutdown_forced_survives_close_failure_witness :
    cLive.apx_instance = true ∧ ShutdownForcedOutcome cLive supTwo :=
  ⟨rfl, shutdown_forced_survives_close_failure cLive supTwo rfl⟩

/-- Conclusion of the C9 theorem: outcome of shutdown(force=false) whose
graceful close throws. -/
def ShutdownUnforcedOutcome (c : Controller) (sup : Supervisor) : Prop :=
  (shutdown c false sup false).ok = true ∧
  (shutdown c false sup false).ctrl.apx_instance = false ∧
  (shutdown c false sup false).ctrl.state.project = none ∧
  (shutdown c false sup false).ctrl.state.apx_state = APxState.NOT_RUNNING ∧
  (shutdown c false sup false).calls = [ExtCall.closeDriver]

/-- C9: shutdown(force=false) with a driver handle whose graceful close
throws swallows the failure: it still clears the handle and project, sets
NotRunning, reports success, and never escalates to the process killer
(the only external call is the attempted close). -/
theorem shutdown_unforced_swallows_close_failure (c : Controller) (sup : Supervisor)
    (h : c.apx_instance = true) : ShutdownUnforcedOutcome c sup := by
  unfold ShutdownUnforcedOutcome shutdown
  simp [h, clearRunState]

/-- C9 witness at a concrete live controller and supervisor. -/
theorem shutdown_unforced_swallows_close_failure_witness :
    cLive.apx_instance = true ∧ ShutdownUnforcedOutcome cLive supTwo :=
  ⟨rfl, shutdown_unforced_swallows_close_failure cLive supTwo rfl⟩

/-- C10: get_result consults neither the session state nor the driver
handle: the controller comes back unchanged, and every output field is the
same whatever controller the call is made on, for success and error paths
alike. -/
theorem get_result_ignores_controller_state (c c' : Controller) (fs : ResultsFS)
    (rp : List String) :
    (get_result c fs rp).ctrl = c ∧
    (get_result c fs rp).zip_path = (get_result c' fs rp).zip_path ∧
    (get_result c fs rp).directory_found = (get_result c' fs rp).directory_found ∧
    (get_result c fs rp).error = (get_result c' fs rp).error := by
  unfold get_result
  by_cases h1 : fs.parentExists <;> by_cases h2 : fs.parentIsDir <;>
    by_cases h3 : fs.zipOk <;>
      by_cases h4 : matchingDirs fs (lastComponent rp) = [] <;>
        simp_all

/-- Conclusion of the C1 theorem: every run that actually starts ends with
the session back in Idle; a failed run records its message in last_error
(with a timestamp) and never moves the state to Error; a successful run
leaves last_error untouched. -/
def RunIdleOutcome (c : Controller) (env : RunEnv) (sn tid : String) : Prop :=
  (run_sequence c env sn tid).ctrl.state.apx_state = APxState.IDLE ∧
  (run_sequence c env sn tid).ctrl.state.apx_state ≠ APxState.ERROR ∧
  ((run_sequence c env sn tid).error ≠ none →
    (run_sequence c env sn tid).ctrl.state.last_error = (run_sequence c env sn tid).error ∧
    (run_sequence c env sn tid).ctrl.state.last_error_at = some env.now) ∧
  ((run_sequence c env sn tid).error = none →
    (run_sequence c env sn tid).ctrl.state.last_error = c.state.last_error)

/-- C1: whenever a run is not rejected up front (a driver handle exists and
no step is already running), the finally-guarantee holds: the session
state is Idle after the call for success, limit-check failure and thrown
driver exception alike, and failures are recorded only through last_error,
never through a transition into Error. -/
theorem run_sequence_always_returns_idle (c : Controller) (env : RunEnv) (sn tid : String)
    (h1 : c.apx_instance = true) (h2 : c.state.apx_state ≠ APxState.RUNNING_STEP) :
    RunIdleOutcome c env sn tid := by
  unfold RunIdleOutcome run_sequence require_apx runFinally
  by_cases a : env.activateOk <;> by_cases r : env.runOk <;>
    by_cases p : env.passedReadOk <;> simp [h1, h2, a, r, p]

/-- A driver behaviour whose Run call throws mid-sequence. -/
def envRunThrows : RunEnv :=
  { activateOk := true, runOk := false, passedReadOk := true, passed := false,
    elapsed := 7, now := 11 }

/-- C1 witness: a live idle controller whose run throws still comes back
Idle. -/
theorem run_sequence_always_returns_idle_witness :
    cLive.apx_instance = true ∧ cLive.state.apx_state ≠ APxState.RUNNING_STEP ∧
    RunIdleOutcome cLive envRunThrows "Seq1" "TR-1" :=
  ⟨rfl, by decide,
    run_sequence_always_returns_idle cLive envRunThrows "Seq1" "TR-1" rfl (by decide)⟩

/-- Driver-setup calls: CLR initialisation, driver construction and the
calls on the freshly constructed driver.  The prior-session shutdown's
close/kill calls are deliberately not of this kind. -/
def isSetupCall : ExtCall → Bool
  | ExtCall.initCLR => true
  | ExtCall.construct => true
  | ExtCall.setVisible => true
  | ExtCall.openProject _ => true
  | ExtCall.readSeqCount => true
  | _ => false

/-- Conclusion of the C7 theorem: outcome of a launch whose project file
does not exist. -/
def LaunchMissingFileOutcome (c : Controller) (env : LaunchEnv) (p : String)
    (pn : Option String) : Prop :=
  (launch_apx c env p pn).ok = false ∧
  (launch_apx c env p pn).ctrl.state.apx_state = APxState.ERROR ∧
  (launch_apx c env p pn).ctrl.state.last_error =
    some ("Failed to launch APx500: Project file not found: " ++ p) ∧
  (launch_apx c env p pn).ctrl.state.last_error_at = some env.now ∧
  (launch_apx c env p pn).ctrl.apx_instance = false ∧
  ∀ e ∈ (launch_apx c env p pn).calls, isSetupCall e = false

/-- C7: a launch whose project path names no existing file fails with the
file-not-found validation error, ends in Error with last_error and its
timestamp populated and the handle cleared, and performs none of the
driver-setup calls — the file check precedes CLR initialisation and
driver construction (only the close/kill of a prior session may appear in
the trace). -/
theorem launch_missing_file_fails_without_driver (c : Controller) (env : LaunchEnv)
    (p : String) (pn : Option String) (h : env.fileExists = false) :
    LaunchMissingFileOutcome c env p pn := by
  unfold LaunchMissingFileOutcome launch_apx launchFailState shutdown
    kill_existing_apx_processes
  by_cases hi : c.apx_instance <;> by_cases hc : env.closeOk <;>
    by_cases hf : env.sup.findThrows <;>
      simp [h, hi, hc, hf, killAttempts, isSetupCall]

/-- The spec's project/state invariant: a stored project implies the
session state is Idle, RunningStep or Error. -/
def projInv (c : Controller) : Prop :=
  c.state.project ≠ none →
    c.state.apx_state = APxState.IDLE ∨ c.state.apx_state = APxState.RUNNING_STEP ∨
      c.state.apx_state = APxState.ERROR

/-- The handle-consistency invariant check_health itself enforces: no
driver handle implies the state does not claim APx is running. -/
def handleInv (c : Controller) : Prop :=
  c.apx_instance = false →
    c.state.apx_state ≠ APxState.IDLE ∧ c.state.apx_state ≠ APxState.RUNNING_STEP

/-- Conjunction of the two controller invariants. -/
def ctrlInv (c : Controller) : Prop := projInv c ∧ handleInv c

instance (c : Controller) : Decidable (projInv c) := by
  unfold projInv; infer_instance

instance (c : Controller) : Decidable (handleInv c) := by
  unfold handleInv; infer_instance

instance (c : Controller) : Decidable (ctrlInv c) := by
  unfold ctrlInv; infer_instance

/-- A controller satisfying the bare project/state invariant but not the
handle-consistency one: project stored, state Idle, no handle. -/
def cBadHealth : Controller :=
  { state :=
      { apx_state := APxState.IDLE,
        project := some { name := "proj", file_path := "/data/proj.approjx",
                          sha256 := "abc", loaded_at := 0 },
        apx_pid := none, last_error := none, last_error_at := none,
        server_started_at := 0 },
    apx_instance := false, clrLoaded := false }

/-- C2 counterexample: check_health does not preserve the bare
project/state invariant.  From a state satisfying it (project stored,
state Idle, handle lost), check_health downgrades the state to NotRunning
while the project stays stored, so the claimed invariant is broken by one
of the listed operations. -/
theorem check_health_breaks_bare_project_inv :
    projInv cBadHealth ∧
    (check_health cBadHealth 5).ctrl.state.project ≠ none ∧
    (check_health cBadHealth 5).ctrl.state.apx_state = APxState.NOT_RUNNING := by
  refine ⟨?_, ?_, ?_⟩ <;> decide

lemma ctrlInv_of_cleared (c : Controller) (h1 : c.state.project = none)
    (h2 : c.state.apx_state = APxState.NOT_RUNNING) : ctrlInv c := by
  unfold ctrlInv projInv handleInv
  simp [h1, h2]

lemma ctrlInv_kill (c : Controller) (sup : Supervisor) :
    ctrlInv (kill_existing_apx_processes c sup).ctrl :=
  ctrlInv_of_cleared _ rfl rfl

lemma ctrlInv_shutdown (c : Controller) (closeOk : Bool) (sup : Supervisor) (force : Bool) :
    ctrlInv (shutdown c closeOk sup force).ctrl :=
  ctrlInv_of_cleared _ rfl rfl

lemma ctrlInv_reset (c : Controller) (sup : Supervisor) :
    ctrlInv (reset c sup).ctrl :=
  ctrlInv_of_cleared _ rfl rfl

lemma ctrlInv_of_error (c : Controller) (h1 : c.state.apx_state = APxState.ERROR)
    (h2 : c.apx_instance = false) : ctrlInv c := by
  unfold ctrlInv projInv handleInv
  simp [h1, h2]

lemma ctrlInv_of_idle_handle (c : Controller) (h1 : c.state.apx_state = APxState.IDLE)
    (h2 : c.apx_instance = true) : ctrlInv c := by
  unfold ctrlInv projInv handleInv
  simp [h1, h2]

lemma ctrlInv_launch (c : Controller) (env : LaunchEnv) (p : String) (pn : Option String) :
    ctrlInv (launch_apx c env p pn).ctrl := by
  unfold launch_apx
  by_cases hi : c.apx_instance <;>
    simp only [hi, Bool.true_eq_false, ite_true, ite_false, Bool.false_eq_true,
      if_true, if_false] <;>
    split_ifs <;>
      first
        | exact ctrlInv_of_error _ rfl rfl
        | exact ctrlInv_of_idle_handle _ rfl rfl

lemma ctrlInv_run (c : Controller) (env : RunEnv) (sn tid : String)
    (h : ctrlInv c) : ctrlInv (run_sequence c env sn tid).ctrl := by
  unfold run_sequence require_apx
  by_cases hi : c.apx_instance <;>
    by_cases hs : c.state.apx_state = APxState.RUNNING_STEP <;>
      simp only [hi, hs, Bool.true_eq_false, Bool.false_eq_true, ite_true, ite_false,
        if_true, if_false] <;>
        (try split_ifs) <;>
          first
            | exact h
            | exact ctrlInv_of_idle_handle _ rfl (by simp [runFinally, hi])

lemma ctrlInv_check_health (c : Controller) (now : Nat)
    (h : ctrlInv c) : ctrlInv (check_health c now).ctrl := by
  unfold check_health
  split_ifs with h1 h2
  · exact absurd h1 (by rcases h.2 h2 with ⟨hni, hnr⟩; simp [hni, hnr])
  · exact h
  · exact h

/-- Conclusion of the C2 theorem: the strengthened invariant after each of
the six controller operations. -/
def InvPreservedByAllOps (c : Controller) (envL : LaunchEnv) (p : String)
    (pn : Option String) (envR : RunEnv) (sn tid : String) (closeOk : Bool)
    (sup : Supervisor) (force : Bool) (now : Nat) : Prop :=
  ctrlInv (launch_apx c envL p pn).ctrl ∧
  ctrlInv (run_sequence c envR sn tid).ctrl ∧
  ctrlInv (shutdown c closeOk sup force).ctrl ∧
  ctrlInv (reset c sup).ctrl ∧
  ctrlInv (check_health c now).ctrl ∧
  ctrlInv (kill_existing_apx_processes c sup).ctrl

/-- C2 (amended): when the project/state invariant is strengthened with
the handle-consistency invariant (no handle implies the state is neither
Idle nor RunningStep), the conjunction is preserved by every controller
operation: launch_apx, run_sequence, shutdown, reset, check_health and
kill_existing_apx_processes. -/
theorem controller_ops_preserve_strengthened_inv (c : Controller)
    (envL : LaunchEnv) (p : String) (pn : Option String) (envR : RunEnv)
    (sn tid : String) (closeOk : Bool) (sup : Supervisor) (force : Bool)
    (now : Nat) (h : ctrlInv c) :
    InvPreservedByAllOps c envL p pn envR sn tid closeOk sup force now :=
  ⟨ctrlInv_launch c envL p pn, ctrlInv_run c envR sn tid h,
   ctrlInv_shutdown c closeOk sup force, ctrlInv_reset c sup,
   ctrlInv_check_health c now h, ctrlInv_kill c sup⟩

/-- A launch environment where everything succeeds. -/
def envLaunchOk : LaunchEnv :=
  { fileExists := true, fileSize := 2048, fileHash := "feed", closeOk := true,
    sup := supTwo, clrOk := true, constructOk := true, visibleOk := true,
    openOk := true, now := 42 }

/-- C2 witness at a concrete live controller. -/
theorem controller_ops_preserve_strengthened_inv_witness :
    ctrlInv cLive ∧
    InvPreservedByAllOps cLive envLaunchOk "/data/p.approjx" none envRunThrows
      "Seq1" "TR-1" false supTwo true 9 :=
  ⟨⟨by decide, by decide⟩,
    controller_ops_preserve_strengthened_inv cLive envLaunchOk "/data/p.approjx" none
      envRunThrows "Seq1" "TR-1" false supTwo true 9 ⟨by decide, by decide⟩⟩

/-- A controller in the Error state that still holds a driver handle
(e.g. the state was set by hand or by an earlier code path). -/
def cErrWithHandle : Controller :=
  { state :=
      { apx_state := APxState.ERROR, project := none, apx_pid := none,
        last_error := some "earlier failure", last_error_at := some 0,
        server_started_at := 0 },
    apx_instance := true, clrLoaded := true }

/-- A driver behaviour for a fully successful run. -/
def envRunAllOk : RunEnv :=
  { activateOk := true, runOk := true, passedReadOk := true, passed := true,
    elapsed := 2, now := 3 }

/-- C3 counterexample: run_sequence does not require the state to be Idle.
From the Error state with a driver handle held, the call is not rejected:
it returns no error, makes driver calls, and mutates the server state
(ending in Idle). -/
theorem run_sequence_accepts_non_idle_state :
    cErrWithHandle.state.apx_state ≠ APxState.IDLE ∧
    (run_sequence cErrWithHandle envRunAllOk "Seq1" "TR-1").error = none ∧
    (run_sequence cErrWithHandle envRunAllOk "Seq1" "TR-1").calls ≠ [] ∧
    (run_sequence cErrWithHandle envRunAllOk "Seq1" "TR-1").ctrl ≠ cErrWithHandle := by
  refine ⟨by decide, by decide, by decide, by decide⟩

/-- Conclusion of the C3 theorem: the actual precondition of run_sequence.
It rejects exactly when no driver handle is held or a step is already
running; rejections carry a typed error and have no side effects (state
untouched, no driver call); in every other state, Idle or not, the run
proceeds, makes driver calls and ends in Idle. -/
def RunRejectBehaviour (c : Controller) (env : RunEnv) (sn tid : String) : Prop :=
  ((c.apx_instance = false ∨ c.state.apx_state = APxState.RUNNING_STEP) →
    (run_sequence c env sn tid).error ≠ none ∧
    (run_sequence c env sn tid).ctrl = c ∧
    (run_sequence c env sn tid).calls = []) ∧
  (¬ (c.apx_instance = false ∨ c.state.apx_state = APxState.RUNNING_STEP) →
    (run_sequence c env sn tid).calls ≠ [] ∧
    (run_sequence c env sn tid).ctrl.state.apx_state = APxState.IDLE)

/-- C3 (amended): run_sequence's precondition is possession of a driver
handle and no step already running — not state equal to Idle.  Rejected
calls (no handle, or RunningStep) return a typed error with no side
effects on the server state and no driver call; calls from NotRunning,
Starting, Idle or Error with a handle all proceed. -/
theorem run_sequence_reject_characterisation (c : Controller) (env : RunEnv)
    (sn tid : String) : RunRejectBehaviour c env sn tid := by
  unfold RunRejectBehaviour run_sequence require_apx
  by_cases hi : c.apx_instance <;>
    by_cases hs : c.state.apx_state = APxState.RUNNING_STEP <;>
      by_cases a : env.activateOk <;> by_cases r : env.runOk <;>
        by_cases pr : env.passedReadOk <;>
          simp [hi, hs, a, r, pr, runFinally]

/-- C3 witness: the characterisation applied at the concrete Error-state
controller with a handle. -/
theorem run_sequence_reject_characterisation_witness :
    RunRejectBehaviour cErrWithHandle envRunAllOk "Seq1" "TR-1" :=
  run_sequence_reject_characterisation cErrWithHandle envRunAllOk "Seq1" "TR-1"

lemma walk_ok (fails : String → Bool) (ps : List (Nat × DriverSeq)) :
    ∀ (act : Option String), (∀ q ∈ ps, fails q.2.name = false) →
      ∃ act2 l, walkSequences fails ps act = (act2, Except.ok l) := by
  induction ps with
  | nil => intro act _; exact ⟨act, [], rfl⟩
  | cons q rest ih =>
    intro act h
    obtain ⟨i, s⟩ := q
    have hs : fails s.name = false := h (i, s) (List.mem_cons_self _ _)
    obtain ⟨act2, l, hl⟩ := ih (some s.name) (fun q hq => h q (List.mem_cons_of_mem _ hq))
    exact ⟨act2, buildSequenceInfo i s :: l, by simp [walkSequences, hs, hl]⟩

/-- Conclusion of the C4 theorem: the enumeration reports the previously
active sequence, ends without error, and leaves that sequence active on
the driver. -/
def ListRestoresActive (c : Controller) (d : ApxDriver) (a : String) : Prop :=
  (list_structure c d).driver.active = some a ∧
  (list_structure c d).error = none ∧
  (list_structure c d).active_sequence = some a

/-- C4 (amended): when the enumeration completes without a driver
exception — the active-sequence read succeeds with a non-empty name, every
activation during the walk succeeds, and re-activating the saved sequence
succeeds — the previously active sequence is active again afterwards even
though the walk activated every other sequence in between.  When the walk
throws part-way, no restore is attempted (see the counterexample); a
failing restore itself is only logged, never thrown. -/
theorem list_structure_restores_active_on_success (c : Controller) (d : ApxDriver)
    (a : String) (hInst : c.apx_instance = true) (hRead : d.activeReadOk = true)
    (hAct : d.active = some a) (hNe : a ≠ "")
    (hWalk : ∀ s ∈ d.sequences, d.activateFails s.name = false)
    (hRestore : d.activateFails a = false) :
    ListRestoresActive c d a := by
  have hWalk2 : ∀ q ∈ d.sequences.enum, d.activateFails q.2.name = false := by
    intro q hq
    obtain ⟨hlt, hq2⟩ := List.mem_enum hq
    exact hWalk _ (hq2 ▸ List.getElem_mem hlt)
  obtain ⟨act2, l, hw⟩ := walk_ok d.activateFails d.sequences.enum d.active hWalk2
  unfold ListRestoresActive list_structure require_apx
  rw [hAct] at hw
  simp [hInst, hRead, hAct, hNe, hRestore, hw]

/-- A driver whose third sequence cannot be activated: the walk activates
A then B, then throws on C. -/
def dEx : ApxDriver :=
  { sequences :=
      [ { name := "A", signalPaths := [] },
        { name := "B", signalPaths := [] },
        { name := "C", signalPaths := [] } ],
    active := some "A", activeReadOk := true,
    activateFails := fun n => n == "C" }

/-- C4 counterexample: a driver exception during the walk skips the
restore.  Sequence A is active before the call; the walk activates A then
B, throws activating C, and list_structure returns the error with B — not
A — left active on the driver. -/
theorem list_structure_skips_restore_on_walk_failure :
    dEx.active = some "A" ∧
    (list_structure cLive dEx).error ≠ none ∧
    (list_structure cLive dEx).driver.active = some "B" := by
  refine ⟨by decide, by decide, by decide⟩

/-- A driver where every activation succeeds: sequences B and A, with A
initially active; the walk activates B then A, then restores A. -/
def dOk : ApxDriver :=
  { sequences :=
      [ { name := "B",
          signalPaths :=
            [ { name := "SP1", checked := true,
                measurements := [ { name := "M1", checked := false } ] } ] },
        { name := "A", signalPaths := [] } ],
    active := some "A", activeReadOk := true, activateFails := fun _ => false }

/-- C4 witness: the restore theorem applied at the concrete all-success
driver. -/
theorem list_structure_restores_active_on_success_witness :
    cLive.apx_instance = true ∧ dOk.active = some "A" ∧
    ListRestoresActive cLive dOk "A" :=
  ⟨rfl, rfl,
    list_structure_restores_active_on_success cLive dOk "A" rfl rfl rfl (by decide)
      (by decide) rfl⟩

/-- An entry whose modification time is at least every entry's in a list. -/
def isMaxMtimeOf (e : DirEntry) (l : List DirEntry) : Prop :=
  ∀ e2 ∈ l, e2.mtime ≤ e.mtime

lemma mtimeDesc_trans (a b c : DirEntry) (h1 : mtimeDesc a b = true)
    (h2 : mtimeDesc b c = true) : mtimeDesc a c = true := by
  unfold mtimeDesc at *
  exact decide_eq_true (Nat.le_trans (of_decide_eq_true h2) (of_decide_eq_true h1))

lemma mtimeDesc_total (a b : DirEntry) : (mtimeDesc a b || mtimeDesc b a) = true := by
  unfold mtimeDesc
  rcases Nat.le_total a.mtime b.mtime with h | h <;> simp [h]

lemma mergeSort_headD_max (l : List DirEntry) (hne : l ≠ []) (z : DirEntry) :
    (l.mergeSort mtimeDesc).headD z ∈ l ∧
    isMaxMtimeOf ((l.mergeSort mtimeDesc).headD z) l := by
  have hperm := List.mergeSort_perm l mtimeDesc
  have hsorted := List.sorted_mergeSort mtimeDesc_trans mtimeDesc_total l
  obtain ⟨hd, tl, hms⟩ : ∃ hd tl, l.mergeSort mtimeDesc = hd :: tl := by
    cases hcase : l.mergeSort mtimeDesc with
    | nil => exact absurd ((hcase ▸ hperm).symm.eq_nil) hne
    | cons x xs => exact ⟨x, xs, rfl⟩
  rw [hms, List.headD_cons]
  have hmem : hd ∈ l := hperm.mem_iff.1 (hms ▸ List.mem_cons_self hd tl)
  refine ⟨hmem, fun e he => ?_⟩
  have he2 : e ∈ hd :: tl := hms ▸ hperm.mem_iff.2 he
  rcases List.mem_cons.1 he2 with rfl | hin
  · exact Nat.le_refl _
  · have := (List.pairwise_cons.1 (hms ▸ hsorted)).1 e hin
    exact of_decide_eq_true this

/-- Conclusion of the C5 theorem: the three match-count cases of result
location.  Zero matching directories yields a typed not-found error; a
unique match is selected as-is; several matches yield (error-free) some
matching directory of maximal modification time, whose exact name is
returned. -/
def GetResultSelection (c : Controller) (fs : ResultsFS) (rp : List String) : Prop :=
  (matchingDirs fs (lastComponent rp) = [] →
    (get_result c fs rp).directory_found = none ∧
    (get_result c fs rp).error = some ("No directory found matching " ++ lastComponent rp)) ∧
  (∀ e, matchingDirs fs (lastComponent rp) = [e] →
    (get_result c fs rp).directory_found = some e.name ∧
    (get_result c fs rp).zip_path = some (zipPathFor e.name) ∧
    (get_result c fs rp).error = none) ∧
  (1 < (matchingDirs fs (lastComponent rp)).length →
    (get_result c fs rp).error = none ∧
    ∃ e ∈ matchingDirs fs (lastComponent rp),
      (get_result c fs rp).directory_found = some e.name ∧
      isMaxMtimeOf e (matchingDirs fs (lastComponent rp)))

/-- C5: over an existing parent directory (with a working archive step),
get_result returns a typed not-found error when no directory matches the
name pattern, selects the unique match when exactly one does, and on
several matches deterministically selects a most recently modified one and
returns that directory's exact name. -/
theorem get_result_prefix_selection (c : Controller) (fs : ResultsFS) (rp : List String)
    (hE : fs.parentExists = true) (hD : fs.parentIsDir = true) (hZ : fs.zipOk = true) :
    GetResultSelection c fs rp := by
  unfold GetResultSelection get_result
  refine ⟨?_, ?_, ?_⟩
  · intro hnil
    simp [hE, hD, hZ, hnil]
  · intro e hone
    simp [hE, hD, hZ, hone]
  · intro hlen
    have hne : matchingDirs fs (lastComponent rp) ≠ [] := by
      intro hx
      rw [hx] at hlen
      exact absurd hlen (by decide)
    obtain ⟨hmem, hmax⟩ :=
      mergeSort_headD_max (matchingDirs fs (lastComponent rp)) hne
        { name := "", is_dir := false, mtime := 0 }
    refine ⟨?_, ?_⟩
    · simp [hE, hD, hZ, hne, hlen, List.isEmpty_iff]
    · refine ⟨((matchingDirs fs (lastComponent rp)).mergeSort mtimeDesc).headD
        { name := "", is_dir := false, mtime := 0 }, hmem, ?_, hmax⟩
      simp [hE, hD, hZ, hne, hlen, List.isEmpty_iff]

/-- A parent directory holding two directories that match the RUN-1 name
pattern (with different modification times), one matching file, and one
unrelated directory. -/
def fsMulti : ResultsFS :=
  { parentExists := true, parentIsDir := true,
    entries :=
      [ { name := "RUN-1-20260101", is_dir := true, mtime := 100 },
        { name := "RUN-1-20260105", is_dir := true, mtime := 200 },
        { name := "RUN-1-notes.txt", is_dir := false, mtime := 300 },
        { name := "OTHER", is_dir := true, mtime := 400 } ],
    zipOk := true }

/-- C5 witness: the selection theorem applied to the concrete two-match
filesystem. -/
theorem get_result_prefix_selection_witness :
    fsMulti.parentExists = true ∧ GetResultSelection cLive fsMulti ["data", "RUN-1"] :=
  ⟨rfl, get_result_prefix_selection cLive fsMulti ["data", "RUN-1"] rfl rfl rfl⟩

/-- A launch environment whose project file does not exist (on a
controller with a prior live session, so the prior shutdown path runs). -/
def envNoFile : LaunchEnv :=
  { fileExists := false, fileSize := 0, fileHash := "", closeOk := false,
    sup := supTwo, clrOk := true, constructOk := true, visibleOk := true,
    openOk := true, now := 17 }

/-- C7 witness: the missing-file launch theorem applied at a concrete
controller and environment. -/
theorem launch_missing_file_fails_without_driver_witness :
    envNoFile.fileExists = false ∧
    LaunchMissingFileOutcome cLive envNoFile "/data/missing.approjx" none :=
  ⟨rfl, launch_missing_file_fails_without_driver cLive envNoFile
    "/data/missing.approjx" none rfl⟩
